import Mathlib

/-!
Shallow embedding of the crawlerHoneyPot repository.

The embedded code:
* `localTesting/dashboard/classifier.py` — the traffic classifier
  (`classify_traffic`, `classify_user_agent`, `classify_path` and their
  detailed variants).
* `localTesting/parser/bot_parser.py` — the log-line parser
  (`parse_log_line`, `extract_path`), the ingest-time user-agent matcher
  (`classify_bot`) and the tailing loop (`tail_logs`).

Modelling conventions:
* Python strings are Lean `String`s; `str.lower` is modelled by
  `strLower` (character-wise `Char.toLower`; the inputs of interest are
  ASCII).
* The signature catalog (`bot_signatures.json`, loaded at module level into
  `SIGNATURES`) is data, not code; every definition is parameterised by a
  `Signatures` value.  A Python dict preserves insertion order, so each tier
  is an association list `List (String × Config)`.
* `re.search(pattern, path, re.IGNORECASE)` on the path tiers is abstracted
  as a parameter `rs : String → String → Bool` (pattern, text): the
  classifier's control flow never inspects the regex engine, only the
  boolean result.  `classify_traffic` hands `rs` the lowered path exactly as
  the source hands `re.search` the lowered path.
* The fixed nginx log-line regex used by `parse_log_line` is embedded
  directly as a backtracking matcher specialised to that pattern.
-/

namespace HoneyPot

/-- One category entry of the signature catalog: the fields read by
`classifier.py` via `config.get(...)`.  Absent fields are `none` / `[]`,
matching `dict.get` defaults in the source. -/
structure Config where
  user_agents : List String := []
  path_patterns : List String := []
  threat_score : Option Int := none
  description : Option String := none
deriving DecidableEq

/-- The five tiers of `bot_signatures.json` as used by `classifier.py`
(`SIGNATURES.get(tier, {})`): a missing tier behaves as an empty mapping. -/
structure Signatures where
  benign : List (String × Config) := []
  security_scanners : List (String × Config) := []
  generic_clients : List (String × Config) := []
  reconnaissance : List (String × Config) := []
  malicious : List (String × Config) := []
deriving DecidableEq

/-- Does the character sequence `pat` occur at the head of `s`? -/
def startsWithSeq : List Char → List Char → Bool
  | [], _ => true
  | _ :: _, [] => false
  | a :: asx, b :: bs => a = b && startsWithSeq asx bs

/-- Does the character sequence `pat` occur anywhere in `s`?  This is the
semantics of Python's `in` on strings. -/
def containsSeq (pat : List Char) : List Char → Bool
  | [] => startsWithSeq pat []
  | c :: cs => startsWithSeq pat (c :: cs) || containsSeq pat cs

/-- Python `str.lower()` (ASCII): lower every character. -/
def strLower (s : String) : String := ⟨s.data.map Char.toLower⟩

/-- `pattern.lower() in user_agent_lower` — case-insensitive substring test
(the right argument is already lowered by the caller, as in the source). -/
def uaMatch (pattern ual : String) : Bool :=
  containsSeq (strLower pattern).data ual.data

/-- One tier of `classify_user_agent`: the Python double loop
`for bot_type, config in tier.items(): for pattern in ...: if ...: return`
returns on the first category having any matching pattern, i.e. `find?` over
categories with an `any` over that category's patterns.  `pre` is the
category-name prefix and `dflt` the tier's `threat_score` default. -/
def tierHit (pre : String) (dflt : Int) (tier : List (String × Config))
    (ual : String) : Option (String × Int) :=
  (tier.find? (fun nc => nc.2.user_agents.any (fun p => uaMatch p ual))).map
    (fun nc => (pre ++ nc.1, nc.2.threat_score.getD dflt))

/-- `classify_user_agent(user_agent_lower)`: benign tier first, then
security scanners, then generic clients; `(None, 0)` is modelled as `none`. -/
def classify_user_agent (s : Signatures) (ual : String) : Option (String × Int) :=
  (tierHit "benign_" (-10) s.benign ual).or
    ((tierHit "scanner_" 20 s.security_scanners ual).or
      (tierHit "generic_" 5 s.generic_clients ual))

/-- One tier of `classify_user_agent_detailed`: as `tierHit`, but the first
matching pattern of the winning category is reported through the evidence
builder `mk bot_type pattern`. -/
def tierHitDetailed (pre : String) (dflt : Int) (mk : String → String → String)
    (tier : List (String × Config)) (ual : String) :
    Option (String × Int × String) :=
  tier.findSome? (fun nc =>
    (nc.2.user_agents.find? (fun p => uaMatch p ual)).map
      (fun p => (pre ++ nc.1, nc.2.threat_score.getD dflt, mk nc.1 p)))

/-- `classify_user_agent_detailed(user_agent_lower)`. -/
def classify_user_agent_detailed (s : Signatures) (ual : String) :
    Option (String × Int × String) :=
  (tierHitDetailed "benign_" (-10)
      (fun bt p => "User-Agent matches " ++ bt ++ ": " ++ p) s.benign ual).or
    ((tierHitDetailed "scanner_" 20
        (fun _ p => "Security scanner detected: " ++ p) s.security_scanners ual).or
      (tierHitDetailed "generic_" 5
        (fun _ p => "Generic HTTP client: " ++ p) s.generic_clients ual))

/-- `classify_path(path_lower)`.  The reconnaissance loop appends each
matching category (`break` after the first matching pattern of a category,
so a category is counted once); the malicious loop inserts each matching
category at the front of the same list (`categories.insert(0, ...)`). -/
def classify_path (rs : String → String → Bool) (s : Signatures)
    (pl : String) : List String × Int :=
  let recon := s.reconnaissance.foldl
    (fun acc nc =>
      if nc.2.path_patterns.any (fun p => rs p pl) then
        (acc.1 ++ ["recon_" ++ nc.1], acc.2 + nc.2.threat_score.getD 10)
      else acc) ([], 0)
  s.malicious.foldl
    (fun acc nc =>
      if nc.2.path_patterns.any (fun p => rs p pl) then
        (("malicious_" ++ nc.1) :: acc.1, acc.2 + nc.2.threat_score.getD 50)
      else acc) recon

/-- `str.title()` on ASCII data: a letter is uppercased when it follows a
non-letter and lowercased otherwise. -/
def pyTitleGo : List Char → Bool → List Char
  | [], _ => []
  | c :: cs, prevAlpha =>
    (if c.isAlpha then (if prevAlpha then c.toLower else c.toUpper) else c)
      :: pyTitleGo cs c.isAlpha

/-- `str.title()`. -/
def pyTitle (s : String) : String := ⟨pyTitleGo s.data false⟩

/-- `config.get('description', name.replace('_', ' ').title())`. -/
def pathDescription (name : String) (c : Config) : String :=
  c.description.getD (pyTitle (name.replace "_" " "))

/-- `classify_path_detailed(path_lower)`: same control flow as
`classify_path`, additionally collecting evidence strings (appended for
reconnaissance, inserted at the front for malicious). -/
def classify_path_detailed (rs : String → String → Bool) (s : Signatures)
    (pl : String) : List String × Int × List String :=
  let recon := s.reconnaissance.foldl
    (fun acc nc =>
      if nc.2.path_patterns.any (fun p => rs p pl) then
        (acc.1 ++ ["recon_" ++ nc.1], acc.2.1 + nc.2.threat_score.getD 10,
         acc.2.2 ++ ["Path pattern: " ++ pathDescription nc.1 nc.2])
      else acc) ([], 0, [])
  s.malicious.foldl
    (fun acc nc =>
      if nc.2.path_patterns.any (fun p => rs p pl) then
        (("malicious_" ++ nc.1) :: acc.1, acc.2.1 + nc.2.threat_score.getD 50,
         ("Malicious pattern: " ++ pathDescription nc.1 nc.2) :: acc.2.2)
      else acc) recon

/-- `classify_traffic(user_agent, path)`: returns
`(primary_category, threat_level, score)`. -/
def classify_traffic (rs : String → String → Bool) (s : Signatures)
    (user_agent path : String) : String × String × Int :=
  let ual := (strLower user_agent)
  let pl := (strLower path)
  let ua := classify_user_agent s ual
  let cats0 : List String := match ua with
    | some csc => [csc.1]
    | none => []
  let score0 : Int := match ua with
    | some csc => csc.2
    | none => 0
  let pr := classify_path rs s pl
  let categories := cats0 ++ pr.1
  let score := score0 + pr.2
  let threat_level :=
    if score < 0 then "benign"
    else if score < 20 then "reconnaissance"
    else "malicious"
  let primary_category := categories.headD "unknown"
  (primary_category, threat_level, score)

/-- The dict returned by `classify_traffic_detailed`. -/
structure DetailedResult where
  category : String
  threat_level : String
  threat_score : Int
  matched_patterns : List String
deriving DecidableEq

/-- `classify_traffic_detailed(user_agent, path)`.  (The Python
`if ua_pattern:` guard always passes: every user-agent evidence string
begins with a non-empty literal.) -/
def classify_traffic_detailed (rs : String → String → Bool) (s : Signatures)
    (user_agent path : String) : DetailedResult :=
  let ual := (strLower user_agent)
  let pl := (strLower path)
  let ua := classify_user_agent_detailed s ual
  let cats0 : List String := match ua with
    | some t => [t.1]
    | none => []
  let score0 : Int := match ua with
    | some t => t.2.1
    | none => 0
  let pats0 : List String := match ua with
    | some t => [t.2.2]
    | none => []
  let pr := classify_path_detailed rs s pl
  let categories := cats0 ++ pr.1
  let score := score0 + pr.2.1
  let matched := pats0 ++ pr.2.2
  let threat_level :=
    if score < 0 then "benign"
    else if score < 20 then "reconnaissance"
    else "malicious"
  let primary_category := categories.headD "unknown"
  { category := primary_category, threat_level := threat_level,
    threat_score := score, matched_patterns := matched }

/-- The dict produced by `parse_log_line` (`match.group(5)`, the byte
count, is matched by the regex but not returned — as in the source). -/
structure Entry where
  ip : String
  timestamp : String
  request : String
  status : Nat
  referer : String
  user_agent : String
deriving DecidableEq

/-- `int(...)` on a non-empty ASCII digit string. -/
def natOfDigits (l : List Char) : Nat :=
  l.foldl (fun n c => 10 * n + (c.toNat - 48)) 0

/-!
`parse_log_line` applies
`re.match(r'(\S+) - \[(.*?)\] "(.*?)" (\d+) (\d+) "(.*?)" "(.*?)"', line)`.
The matcher below embeds exactly this pattern, anchored at the start of the
line (`re.match`), with Python's backtracking semantics:

* `\S+` and `\d+` are greedy, but each is followed by a character its class
  cannot match (a space, or a space/quote), so a shorter match would fail
  immediately on that literal: the maximal run is forced.
* Each `(.*?)` is lazy: at every position the full remaining pattern is
  tried first, and only on its failure is the group extended by one
  character; `.` matches everything except a newline (no `re.DOTALL`).
* `re.match` requires no end anchor: characters after the final quote
  (such as the trailing newline of a log line) are ignored.
-/

/-- Group 7 (`(.*?)"`, the user agent): lazily scan to the first closing
quote; the trailing pattern is empty, so the rest of the line is ignored. -/
def lazyUpTo7 : List Char → Option String
  | [] => none
  | '"' :: _ => some ""
  | c :: cs =>
    if c = '\n' then none
    else (lazyUpTo7 cs).map (fun g => ⟨c :: g.data⟩)

/-- Continuation after group 6: the literal `" "` followed by group 7. -/
def tryCont6 (l : List Char) : Option String :=
  match l with
  | '"' :: ' ' :: '"' :: rest => lazyUpTo7 rest
  | _ => none

/-- Group 6 (`(.*?)`, the referer) with its continuation; returns
`(referer, user_agent)`. -/
def lazyG6 : List Char → Option (String × String)
  | [] => none
  | c :: cs =>
    match tryCont6 (c :: cs) with
    | some g7 => some ("", g7)
    | none =>
      if c = '\n' then none
      else (lazyG6 cs).map (fun r => (⟨c :: r.1.data⟩, r.2))

/-- Continuation after group 3: the literal `" `, then `(\d+) (\d+) "`
(status and byte count), then groups 6 and 7. -/
def tryCont3 (l : List Char) : Option (Nat × Nat × String × String) :=
  match l with
  | '"' :: ' ' :: rest =>
    let d1 := rest.takeWhile (fun c => c.isDigit)
    let r1 := rest.dropWhile (fun c => c.isDigit)
    if d1.isEmpty then none
    else
      match r1 with
      | ' ' :: r2 =>
        let d2 := r2.takeWhile (fun c => c.isDigit)
        let r3 := r2.dropWhile (fun c => c.isDigit)
        if d2.isEmpty then none
        else
          match r3 with
          | ' ' :: '"' :: r4 =>
            (lazyG6 r4).map (fun r => (natOfDigits d1, natOfDigits d2, r.1, r.2))
          | _ => none
      | _ => none
  | _ => none

/-- Group 3 (`(.*?)`, the request line) with its continuation; returns
`(request, status, bytes, referer, user_agent)`. -/
def lazyG3 : List Char → Option (String × Nat × Nat × String × String)
  | [] => none
  | c :: cs =>
    match tryCont3 (c :: cs) with
    | some r => some ("", r)
    | none =>
      if c = '\n' then none
      else (lazyG3 cs).map (fun r => (⟨c :: r.1.data⟩, r.2))

/-- Continuation after group 2: the literal `] "` followed by group 3. -/
def tryCont2 (l : List Char) : Option (String × Nat × Nat × String × String) :=
  match l with
  | ']' :: ' ' :: '"' :: rest => lazyG3 rest
  | _ => none

/-- Group 2 (`(.*?)`, the timestamp) with its continuation; returns
`(timestamp, request, status, bytes, referer, user_agent)`. -/
def lazyG2 : List Char → Option (String × String × Nat × Nat × String × String)
  | [] => none
  | c :: cs =>
    match tryCont2 (c :: cs) with
    | some r => some ("", r)
    | none =>
      if c = '\n' then none
      else (lazyG2 cs).map (fun r => (⟨c :: r.1.data⟩, r.2))

/-- `parse_log_line(line)`: `(\S+)` takes the maximal non-whitespace run
(`\S` modelled as not-`Char.isWhitespace`), then the literal ` - [`, then
groups 2–7.  A line the regex rejects yields `none` (the source returns
`None`), never an error. -/
def parse_log_line (line : String) : Option Entry :=
  let l := line.data
  let ipChars := l.takeWhile (fun c => !c.isWhitespace)
  let r1 := l.dropWhile (fun c => !c.isWhitespace)
  if ipChars.isEmpty then none
  else
    match r1 with
    | ' ' :: '-' :: ' ' :: '[' :: rest =>
      (lazyG2 rest).map (fun r =>
        { ip := ⟨ipChars⟩, timestamp := r.1, request := r.2.1,
          status := r.2.2.1, referer := r.2.2.2.2.1,
          user_agent := r.2.2.2.2.2 })
    | _ => none

/-- Worker for `splitWs`: `cur` holds the characters of the current token
in reverse. -/
def splitWsGo : List Char → List Char → List String
  | [], cur => if cur.isEmpty then [] else [⟨cur.reverse⟩]
  | c :: cs, cur =>
    if c.isWhitespace then
      if cur.isEmpty then splitWsGo cs []
      else ⟨cur.reverse⟩ :: splitWsGo cs []
    else splitWsGo cs (c :: cur)

/-- Python `str.split()` with no separator: the maximal runs of
non-whitespace characters, in order (no empty tokens). -/
def splitWs (s : String) : List String := splitWsGo s.data []

/-- `extract_path(request)`: `parts = request.split();
return parts[1] if len(parts) > 1 else "/"`. -/
def extract_path (request : String) : String :=
  match splitWs request with
  | _ :: p :: _ => p
  | _ => "/"

/-- `classify_bot(user_agent, signatures)` from `bot_parser.py`: the first
entry of `signatures.items()` with a pattern occurring (case-insensitively)
in the user agent; `"unknown"` otherwise.  `bot_parser.py` treats the
signatures mapping as category → list of patterns, so it is embedded
with that shape. -/
def classify_bot (user_agent : String) (signatures : List (String × List String)) :
    String :=
  let ual := (strLower user_agent)
  match signatures.find? (fun cp => cp.2.any (fun p => uaMatch p ual)) with
  | some cp => cp.1
  | none => "unknown"

/-- One row of the `bot_traffic` table, with the columns in the order of the
`INSERT` statement in `tail_logs` (the autoincrement id is left to the
store). -/
structure StoredRow where
  timestamp : String
  ip : String
  user_agent : String
  path : String
  status : Nat
  category : String
  referer : String
deriving DecidableEq

/-- The per-line body of the `tail_logs` loop: parse the line and, on
success, build the row inserted into `bot_traffic` — the parsed fields,
the path extracted from the request, and the category computed by
`classify_bot`.  A parse rejection produces no row. -/
def mkRecord (signatures : List (String × List String)) (line : String) :
    Option StoredRow :=
  (parse_log_line line).map (fun e =>
    { timestamp := e.timestamp, ip := e.ip, user_agent := e.user_agent,
      path := extract_path e.request, status := e.status,
      category := classify_bot e.user_agent signatures,
      referer := e.referer })

/-- The tailing loop of `tail_logs` at complete-line granularity: each
complete line read is handled once, in file order; rejected lines are
skipped silently. -/
def tailLoop (signatures : List (String × List String)) :
    List String → List StoredRow
  | [] => []
  | l :: ls =>
    match mkRecord signatures l with
    | some r => r :: tailLoop signatures ls
    | none => tailLoop signatures ls

/-- `tail_logs` over one run: the file holds `initial` complete lines when
the tailer attaches; `f.seek(0, 2)` moves to the current end of the file, so
the loop reads exactly the lines appended afterwards, in order. -/
def tail_logs (signatures : List (String × List String))
    (initial appended : List String) : List StoredRow :=
  tailLoop signatures ((initial ++ appended).drop initial.length)

/-- A concrete stand-in for `re.search(pattern, text, re.IGNORECASE)` used
by witnesses: case-insensitive substring search (the witness catalogs use
only literal patterns, on which `re.search` is substring search). -/
def substrSearch (pattern text : String) : Bool :=
  containsSeq (strLower pattern).data (strLower text).data

/-! Derived notions the claims quantify over. -/

/-- The threat-level thresholds of `classify_traffic` as a function of the
total score alone. -/
def threat_level_of (score : Int) : String :=
  if score < 0 then "benign"
  else if score < 20 then "reconnaissance"
  else "malicious"

/-- The user-agent factor's score contribution (`0` when nothing matches). -/
def uaFactorScore (s : Signatures) (ual : String) : Int :=
  match classify_user_agent s ual with
  | some csc => csc.2
  | none => 0

/-- The categories of a path tier with at least one pattern matching the
path, in catalog-declared order, with the tier's name prefix attached. -/
def tierMatchCats (rs : String → String → Bool) (pre : String)
    (tier : List (String × Config)) (pl : String) : List String :=
  (tier.filter (fun nc => nc.2.path_patterns.any (fun p => rs p pl))).map
    (fun nc => pre ++ nc.1)

/-- The sum of the threat scores of the matching categories of a path tier,
one contribution per category (`dflt` is the tier's score default). -/
def tierMatchScore (rs : String → String → Bool) (dflt : Int)
    (tier : List (String × Config)) (pl : String) : Int :=
  ((tier.filter (fun nc => nc.2.path_patterns.any (fun p => rs p pl))).map
    (fun nc => nc.2.threat_score.getD dflt)).sum

/-- The whole ordered user-agent scan as one flat list: the benign tier,
then the security scanners, then the generic clients, each entry carrying
its prefixed category name, its config, and its tier's score default. -/
def uaScanList (s : Signatures) : List (String × Config × Int) :=
  s.benign.map (fun nc => ("benign_" ++ nc.1, nc.2, -10))
    ++ s.security_scanners.map (fun nc => ("scanner_" ++ nc.1, nc.2, 20))
    ++ s.generic_clients.map (fun nc => ("generic_" ++ nc.1, nc.2, 5))

/-- Does any user-agent pattern of any of the three user-agent tiers match
the (lowered) user agent? -/
def uaAnyPatternMatch (s : Signatures) (ual : String) : Bool :=
  (s.benign ++ s.security_scanners ++ s.generic_clients).any
    (fun nc => nc.2.user_agents.any (fun p => uaMatch p ual))

/-- The overall category list assembled by `classify_traffic`: the
user-agent category (if any) followed by the path factor's list. -/
def overall_categories (rs : String → String → Bool) (s : Signatures)
    (ua path : String) : List String :=
  (match classify_user_agent s (strLower ua) with
    | some csc => [csc.1]
    | none => []) ++ (classify_path rs s (strLower path)).1

/-! Shared helper lemmas. -/

theorem option_or_map {α β : Type} (f : α → β) (a b : Option α) :
    (a.or b).map f = (a.map f).or (b.map f) := by
  cases a <;> rfl

theorem tierHit_eq_scan (pre : String) (d : Int) (tier : List (String × Config))
    (ual : String) :
    tierHit pre d tier ual =
      ((tier.map (fun nc => (pre ++ nc.1, nc.2, d))).find?
        (fun t => t.2.1.user_agents.any (fun p => uaMatch p ual))).map
        (fun t => (t.1, t.2.1.threat_score.getD t.2.2)) := by
  induction tier with
  | nil => rfl
  | cons hd tl ih =>
    unfold tierHit at ih ⊢
    simp only [List.map_cons]
    cases hb : hd.2.user_agents.any (fun p => uaMatch p ual) with
    | false =>
      rw [List.find?_cons_of_neg _ (by simp [hb]),
        List.find?_cons_of_neg _ (by simp [hb])]
      exact ih
    | true =>
      rw [List.find?_cons_of_pos _ (by simp [hb]),
        List.find?_cons_of_pos _ (by simp [hb])]
      rfl

theorem tierHitDetailed_proj (pre : String) (d : Int)
    (mk : String → String → String) (tier : List (String × Config))
    (ual : String) :
    (tierHitDetailed pre d mk tier ual).map (fun t => (t.1, t.2.1)) =
      tierHit pre d tier ual := by
  induction tier with
  | nil => rfl
  | cons hd tl ih =>
    unfold tierHitDetailed tierHit at ih ⊢
    rw [List.findSome?_cons]
    cases hf : hd.2.user_agents.find? (fun p => uaMatch p ual) with
    | none =>
      have hb : hd.2.user_agents.any (fun p => uaMatch p ual) = false := by
        rw [List.find?_eq_none] at hf
        rw [List.any_eq_false]
        exact hf
      rw [List.find?_cons_of_neg _ (by simp [hb])]
      simpa using ih
    | some p =>
      have hb : hd.2.user_agents.any (fun p => uaMatch p ual) = true := by
        have hs : (hd.2.user_agents.find? (fun p => uaMatch p ual)).isSome := by
          rw [hf]; rfl
        rw [List.find?_isSome] at hs
        rw [List.any_eq_true]
        exact hs
      rw [List.find?_cons_of_pos _ (by simp [hb])]
      rfl

theorem classify_user_agent_detailed_proj (s : Signatures) (ual : String) :
    (classify_user_agent_detailed s ual).map (fun t => (t.1, t.2.1)) =
      classify_user_agent s ual := by
  unfold classify_user_agent_detailed classify_user_agent
  rw [option_or_map, option_or_map, tierHitDetailed_proj, tierHitDetailed_proj,
    tierHitDetailed_proj]

/-- The evidence strings of the matching categories of a path tier, in
catalog-declared order. -/
def tierMatchEvidence (rs : String → String → Bool) (pre : String)
    (tier : List (String × Config)) (pl : String) : List String :=
  (tier.filter (fun nc => nc.2.path_patterns.any (fun p => rs p pl))).map
    (fun nc => pre ++ pathDescription nc.1 nc.2)

theorem recon_foldl_eq (rs : String → String → Bool) (pl : String)
    (tier : List (String × Config)) (acc : List String × Int) :
    tier.foldl
        (fun acc nc =>
          if nc.2.path_patterns.any (fun p => rs p pl) then
            (acc.1 ++ ["recon_" ++ nc.1], acc.2 + nc.2.threat_score.getD 10)
          else acc) acc
      = (acc.1 ++ tierMatchCats rs "recon_" tier pl,
         acc.2 + tierMatchScore rs 10 tier pl) := by
  induction tier generalizing acc with
  | nil => simp [tierMatchCats, tierMatchScore]
  | cons hd tl ih =>
    simp only [List.foldl_cons]
    cases hb : hd.2.path_patterns.any (fun p => rs p pl) with
    | false =>
      rw [if_neg (by simp [hb]), ih]
      simp [tierMatchCats, tierMatchScore, List.filter_cons, hb]
    | true =>
      rw [if_pos (by simp [hb]), ih]
      simp [tierMatchCats, tierMatchScore, List.filter_cons, hb,
        List.append_assoc, add_assoc]

theorem mal_foldl_eq (rs : String → String → Bool) (pl : String)
    (tier : List (String × Config)) (acc : List String × Int) :
    tier.foldl
        (fun acc nc =>
          if nc.2.path_patterns.any (fun p => rs p pl) then
            (("malicious_" ++ nc.1) :: acc.1, acc.2 + nc.2.threat_score.getD 50)
          else acc) acc
      = ((tierMatchCats rs "malicious_" tier pl).reverse ++ acc.1,
         acc.2 + tierMatchScore rs 50 tier pl) := by
  induction tier generalizing acc with
  | nil => simp [tierMatchCats, tierMatchScore]
  | cons hd tl ih =>
    simp only [List.foldl_cons]
    cases hb : hd.2.path_patterns.any (fun p => rs p pl) with
    | false =>
      rw [if_neg (by simp [hb]), ih]
      simp [tierMatchCats, tierMatchScore, List.filter_cons, hb]
    | true =>
      rw [if_pos (by simp [hb]), ih]
      simp [tierMatchCats, tierMatchScore, List.filter_cons, hb,
        List.append_assoc, add_assoc]

theorem classify_path_eq (rs : String → String → Bool) (s : Signatures)
    (pl : String) :
    classify_path rs s pl =
      ((tierMatchCats rs "malicious_" s.malicious pl).reverse
          ++ tierMatchCats rs "recon_" s.reconnaissance pl,
        tierMatchScore rs 10 s.reconnaissance pl
          + tierMatchScore rs 50 s.malicious pl) := by
  unfold classify_path
  rw [recon_foldl_eq, mal_foldl_eq]
  simp

theorem recon_foldl_detailed_eq (rs : String → String → Bool) (pl : String)
    (tier : List (String × Config)) (acc : List String × Int × List String) :
    tier.foldl
        (fun acc nc =>
          if nc.2.path_patterns.any (fun p => rs p pl) then
            (acc.1 ++ ["recon_" ++ nc.1], acc.2.1 + nc.2.threat_score.getD 10,
             acc.2.2 ++ ["Path pattern: " ++ pathDescription nc.1 nc.2])
          else acc) acc
      = (acc.1 ++ tierMatchCats rs "recon_" tier pl,
         acc.2.1 + tierMatchScore rs 10 tier pl,
         acc.2.2 ++ tierMatchEvidence rs "Path pattern: " tier pl) := by
  induction tier generalizing acc with
  | nil => simp [tierMatchCats, tierMatchScore, tierMatchEvidence]
  | cons hd tl ih =>
    simp only [List.foldl_cons]
    cases hb : hd.2.path_patterns.any (fun p => rs p pl) with
    | false =>
      rw [if_neg (by simp [hb]), ih]
      simp [tierMatchCats, tierMatchScore, tierMatchEvidence, List.filter_cons, hb]
    | true =>
      rw [if_pos (by simp [hb]), ih]
      simp [tierMatchCats, tierMatchScore, tierMatchEvidence, List.filter_cons,
        hb, List.append_assoc, add_assoc]

theorem mal_foldl_detailed_eq (rs : String → String → Bool) (pl : String)
    (tier : List (String × Config)) (acc : List String × Int × List String) :
    tier.foldl
        (fun acc nc =>
          if nc.2.path_patterns.any (fun p => rs p pl) then
            (("malicious_" ++ nc.1) :: acc.1, acc.2.1 + nc.2.threat_score.getD 50,
             ("Malicious pattern: " ++ pathDescription nc.1 nc.2) :: acc.2.2)
          else acc) acc
      = ((tierMatchCats rs "malicious_" tier pl).reverse ++ acc.1,
         acc.2.1 + tierMatchScore rs 50 tier pl,
         (tierMatchEvidence rs "Malicious pattern: " tier pl).reverse ++ acc.2.2) := by
  induction tier generalizing acc with
  | nil => simp [tierMatchCats, tierMatchScore, tierMatchEvidence]
  | cons hd tl ih =>
    simp only [List.foldl_cons]
    cases hb : hd.2.path_patterns.any (fun p => rs p pl) with
    | false =>
      rw [if_neg (by simp [hb]), ih]
      simp [tierMatchCats, tierMatchScore, tierMatchEvidence, List.filter_cons, hb]
    | true =>
      rw [if_pos (by simp [hb]), ih]
      simp [tierMatchCats, tierMatchScore, tierMatchEvidence, List.filter_cons,
        hb, List.append_assoc, add_assoc]

theorem classify_path_detailed_eq (rs : String → String → Bool) (s : Signatures)
    (pl : String) :
    classify_path_detailed rs s pl =
      ((tierMatchCats rs "malicious_" s.malicious pl).reverse
          ++ tierMatchCats rs "recon_" s.reconnaissance pl,
        tierMatchScore rs 10 s.reconnaissance pl
          + tierMatchScore rs 50 s.malicious pl,
        (tierMatchEvidence rs "Malicious pattern: " s.malicious pl).reverse
          ++ tierMatchEvidence rs "Path pattern: " s.reconnaissance pl) := by
  unfold classify_path_detailed
  rw [recon_foldl_detailed_eq, mal_foldl_detailed_eq]
  simp

theorem tailLoop_eq_filterMap (sigs : List (String × List String))
    (ls : List String) : tailLoop sigs ls = ls.filterMap (mkRecord sigs) := by
  induction ls with
  | nil => rfl
  | cons l ls ih =>
    unfold tailLoop
    cases h : mkRecord sigs l <;> simp [List.filterMap_cons, h, ih]

theorem classify_user_agent_isSome_of_match (s : Signatures) (ual : String)
    (h : uaAnyPatternMatch s ual = true) :
    (classify_user_agent s ual).isSome := by
  unfold uaAnyPatternMatch at h
  simp only [List.any_append, Bool.or_eq_true] at h
  unfold classify_user_agent tierHit
  simp only [Option.isSome_or, Option.isSome_map', Bool.or_eq_true]
  rcases h with (h | h) | h
  · exact Or.inl (List.find?_isSome.mpr (List.any_eq_true.mp h))
  · exact Or.inr (Or.inl (List.find?_isSome.mpr (List.any_eq_true.mp h)))
  · exact Or.inr (Or.inr (List.find?_isSome.mpr (List.any_eq_true.mp h)))

theorem classify_user_agent_eq_none_of_no_match (s : Signatures) (ual : String)
    (h : uaAnyPatternMatch s ual = false) :
    classify_user_agent s ual = none := by
  unfold uaAnyPatternMatch at h
  simp only [List.any_append, Bool.or_eq_false_iff] at h
  obtain ⟨⟨hb, hsc⟩, hg⟩ := h
  rw [List.any_eq_false] at hb hsc hg
  unfold classify_user_agent tierHit
  rw [List.find?_eq_none.mpr hb, List.find?_eq_none.mpr hsc,
    List.find?_eq_none.mpr hg]
  rfl

theorem option_or_assoc {α : Type} (a b c : Option α) :
    (a.or b).or c = a.or (b.or c) := by
  cases a <;> rfl

theorem extract_path_second_token (r : String) :
    extract_path r = ((splitWs r).drop 1).headD "/" := by
  unfold extract_path
  cases h : splitWs r with
  | nil => rfl
  | cons a t => cases t <;> rfl

/-! Concrete fixtures used by witnesses and counterexamples. -/

/-- A small concrete catalog in the shape of `bot_signatures.json`. -/
def wsigs : Signatures :=
  { benign := [("googlebot",
      { user_agents := ["Googlebot"], threat_score := some (-10) })],
    generic_clients := [("curl",
      { user_agents := ["curl"], threat_score := some 5 })],
    reconnaissance := [("wordpress",
      { path_patterns := ["wp-"], threat_score := some 10 })],
    malicious := [("env_files",
      { path_patterns := [".env"], threat_score := some 50 }),
      ("shell_injection",
      { path_patterns := ["shell"], threat_score := some 50 })] }

/-- A flat category → patterns mapping as consumed by `classify_bot`. -/
def csigs : List (String × List String) := [("curl_client", ["curl"])]

/-- The well-formed log line of the spec's parser example. -/
def goodLine : String :=
  "1.2.3.4 - [01/Jan/2025:00:00:00 +0000] \"GET /wp-login.php HTTP/1.1\" 200 10 \"-\" \"curl/7.68.0\""

/-- The entry `parse_log_line` extracts from `goodLine`. -/
def goodEntry : Entry :=
  { ip := "1.2.3.4", timestamp := "01/Jan/2025:00:00:00 +0000",
    request := "GET /wp-login.php HTTP/1.1", status := 200,
    referer := "-", user_agent := "curl/7.68.0" }

/-- A line whose request is not quoted. -/
def noQuoteLine : String :=
  "1.2.3.4 - [01/Jan/2025:00:00:00 +0000] GET /wp-login.php HTTP/1.1 200 10 \"-\" \"curl/7.68.0\""

/-- A line with missing fields after the status. -/
def shortLine : String :=
  "1.2.3.4 - [01/Jan/2025:00:00:00 +0000] \"GET /wp-login.php HTTP/1.1\" 200"

/-- A line whose status field is not numeric. -/
def badStatusLine : String :=
  "1.2.3.4 - [01/Jan/2025:00:00:00 +0000] \"GET /wp-login.php HTTP/1.1\" OK 10 \"-\" \"curl/7.68.0\""

/-- A well-formed line whose request's second token does not begin with a
slash. -/
def relPathLine : String :=
  "1.2.3.4 - [01/Jan/2025:00:00:00 +0000] \"GET evil HTTP/1.1\" 200 10 \"-\" \"curl/7.68.0\""

/-- The entry `parse_log_line` extracts from `relPathLine`. -/
def relEntry : Entry :=
  { ip := "1.2.3.4", timestamp := "01/Jan/2025:00:00:00 +0000",
    request := "GET evil HTTP/1.1", status := 200,
    referer := "-", user_agent := "curl/7.68.0" }

/-- A well-formed line whose request has a single token. -/
def oneTokLine : String :=
  "1.2.3.4 - [01/Jan/2025:00:00:00 +0000] \"GET\" 200 10 \"-\" \"curl/7.68.0\""

/-- The entry `parse_log_line` extracts from `oneTokLine`. -/
def oneTokEntry : Entry :=
  { ip := "1.2.3.4", timestamp := "01/Jan/2025:00:00:00 +0000",
    request := "GET", status := 200,
    referer := "-", user_agent := "curl/7.68.0" }

/-! The claims. -/

/-- C1: whenever some user-agent pattern of the catalog matches the user
agent, the user-agent category occupies position 0 of the overall category
list and is the primary category returned by `classify_traffic`, whatever
the path tiers matched and whatever the threat level is. -/
theorem c1_user_agent_category_is_primary (rs : String → String → Bool)
    (s : Signatures) (ua path : String)
    (h : uaAnyPatternMatch s (strLower ua) = true) :
    ∃ c sc, classify_user_agent s (strLower ua) = some (c, sc)
      ∧ (overall_categories rs s ua path).head? = some c
      ∧ (classify_traffic rs s ua path).1 = c := by
  obtain ⟨⟨c, sc⟩, hcs⟩ :=
    Option.isSome_iff_exists.mp (classify_user_agent_isSome_of_match s (strLower ua) h)
  refine ⟨c, sc, hcs, ?_, ?_⟩
  · unfold overall_categories
    rw [hcs]
    rfl
  · simp [classify_traffic, hcs]

/-- Witness for C1: with catalog `wsigs`, user agent `curl/7.68.0` and path
`/.env`, the user-agent pattern `curl` matches, the primary category is the
user-agent category even though the threat level is `malicious`. -/
theorem c1_user_agent_category_is_primary_witness :
    uaAnyPatternMatch wsigs (strLower "curl/7.68.0") = true
    ∧ (∃ c sc, classify_user_agent wsigs (strLower "curl/7.68.0") = some (c, sc)
        ∧ (overall_categories substrSearch wsigs "curl/7.68.0" "/.env").head? = some c
        ∧ (classify_traffic substrSearch wsigs "curl/7.68.0" "/.env").1 = c)
    ∧ (classify_traffic substrSearch wsigs "curl/7.68.0" "/.env").2.1 = "malicious" :=
  ⟨by decide,
    c1_user_agent_category_is_primary substrSearch wsigs "curl/7.68.0" "/.env"
      (by decide),
    by decide⟩

/-- C2: the threat level returned by `classify_traffic` is a function of the
total score alone with half-open thresholds benign below 0, reconnaissance
on [0, 20), malicious from 20 up, whatever category is primary. -/
theorem c2_threat_level_thresholds (rs : String → String → Bool)
    (s : Signatures) (ua path : String) :
    (classify_traffic rs s ua path).2.1
        = threat_level_of (classify_traffic rs s ua path).2.2
    ∧ threat_level_of (-1) = "benign"
    ∧ threat_level_of 0 = "reconnaissance"
    ∧ threat_level_of 19 = "reconnaissance"
    ∧ threat_level_of 20 = "malicious" :=
  ⟨rfl, rfl, rfl, rfl, rfl⟩

/-- C3: the total score is the user-agent factor score plus the sum of the
threat scores of the matching reconnaissance categories plus the sum of the
threat scores of the matching malicious categories, each category counted
at most once (the sums run over the list of categories whose pattern list
has at least one match). -/
theorem c3_total_score (rs : String → String → Bool) (s : Signatures)
    (ua path : String) :
    (classify_traffic rs s ua path).2.2 =
      uaFactorScore s (strLower ua)
        + tierMatchScore rs 10 s.reconnaissance (strLower path)
        + tierMatchScore rs 50 s.malicious (strLower path) := by
  cases h : classify_user_agent s (strLower ua) <;>
    simp [classify_traffic, uaFactorScore, classify_path_eq, h, add_assoc]

/-- C4: the path factor's list is the malicious matches in reverse
discovery order followed by the reconnaissance matches in discovery order;
hence when the user agent matches nothing and some malicious category
matches the path, the primary category is a malicious-tier category. -/
theorem c4_path_factor_priority (rs : String → String → Bool) (s : Signatures)
    (ua path : String) :
    (classify_path rs s (strLower path)).1 =
      (tierMatchCats rs "malicious_" s.malicious (strLower path)).reverse
        ++ tierMatchCats rs "recon_" s.reconnaissance (strLower path)
    ∧ (classify_user_agent s (strLower ua) = none →
        tierMatchCats rs "malicious_" s.malicious (strLower path) ≠ [] →
        (classify_traffic rs s ua path).1
          ∈ tierMatchCats rs "malicious_" s.malicious (strLower path)) := by
  constructor
  · rw [classify_path_eq]
  · intro hua hne
    cases hr : (tierMatchCats rs "malicious_" s.malicious (strLower path)).reverse with
    | nil =>
      rw [List.reverse_eq_nil_iff] at hr
      exact absurd hr hne
    | cons x xs =>
      have hx : x ∈ tierMatchCats rs "malicious_" s.malicious (strLower path) := by
        rw [← List.mem_reverse, hr]
        exact List.mem_cons_self x xs
      have hp : (classify_traffic rs s ua path).1 = x := by
        simp [classify_traffic, hua, classify_path_eq, hr]
      rw [hp]
      exact hx

/-- Witness for C4: user agent `Mozilla/5.0` matches no pattern of `wsigs`,
path `/shell.env` matches both malicious categories, and the primary
category is one of the malicious matches. -/
theorem c4_path_factor_priority_witness :
    classify_user_agent wsigs (strLower "Mozilla/5.0") = none
    ∧ tierMatchCats substrSearch "malicious_" wsigs.malicious (strLower "/shell.env") ≠ []
    ∧ (classify_traffic substrSearch wsigs "Mozilla/5.0" "/shell.env").1
        ∈ tierMatchCats substrSearch "malicious_" wsigs.malicious (strLower "/shell.env") :=
  ⟨by decide, by decide,
    (c4_path_factor_priority substrSearch wsigs "Mozilla/5.0" "/shell.env").2
      (by decide) (by decide)⟩

/-- C5: the user-agent factor is the first match of one flat ordered scan —
benign tier, then security scanners, then generic clients, categories in
declared order — and when nothing matches it contributes no category and
score 0. -/
theorem c5_user_agent_scan_order (rs : String → String → Bool) (s : Signatures)
    (ua path : String) :
    classify_user_agent s (strLower ua) =
      ((uaScanList s).find?
          (fun t => t.2.1.user_agents.any (fun p => uaMatch p (strLower ua)))).map
        (fun t => (t.1, t.2.1.threat_score.getD t.2.2))
    ∧ (uaAnyPatternMatch s (strLower ua) = false →
        classify_user_agent s (strLower ua) = none
        ∧ (classify_traffic rs s ua path).1
            = (classify_path rs s (strLower path)).1.headD "unknown"
        ∧ (classify_traffic rs s ua path).2.2 = (classify_path rs s (strLower path)).2) := by
  constructor
  · unfold classify_user_agent uaScanList
    rw [List.find?_append, List.find?_append, option_or_map, option_or_map,
      ← tierHit_eq_scan, ← tierHit_eq_scan, ← tierHit_eq_scan, option_or_assoc]
  · intro h
    have hn := classify_user_agent_eq_none_of_no_match s (strLower ua) h
    refine ⟨hn, ?_, ?_⟩ <;> simp [classify_traffic, hn]

/-- Witness for C5: user agent `Mozilla/5.0` matches no pattern of `wsigs`,
so the user-agent factor contributes nothing on path `/wp-admin`. -/
theorem c5_user_agent_scan_order_witness :
    uaAnyPatternMatch wsigs (strLower "Mozilla/5.0") = false
    ∧ (classify_user_agent wsigs (strLower "Mozilla/5.0") = none
       ∧ (classify_traffic substrSearch wsigs "Mozilla/5.0" "/wp-admin").1
           = (classify_path substrSearch wsigs (strLower "/wp-admin")).1.headD "unknown"
       ∧ (classify_traffic substrSearch wsigs "Mozilla/5.0" "/wp-admin").2.2
           = (classify_path substrSearch wsigs (strLower "/wp-admin")).2) :=
  ⟨by decide,
    (c5_user_agent_scan_order substrSearch wsigs "Mozilla/5.0" "/wp-admin").2
      (by decide)⟩

/-- C6: the parser accepts the combined-log grammar and rejects (with
`none`, never an error) lines with missing quotes, missing fields or a
non-numeric status; the spec's concrete line yields ip `1.2.3.4`, path
`/wp-login.php`, status 200, user agent `curl/7.68.0`; and for every
request line the path is its second whitespace token, defaulting to `/`. -/
theorem c6_parser_grammar (r : String) :
    parse_log_line goodLine = some goodEntry
    ∧ extract_path goodEntry.request = "/wp-login.php"
    ∧ parse_log_line noQuoteLine = none
    ∧ parse_log_line shortLine = none
    ∧ parse_log_line badStatusLine = none
    ∧ extract_path r = ((splitWs r).drop 1).headD "/" :=
  ⟨by decide, by decide, by decide, by decide, by decide,
    extract_path_second_token r⟩

/-- C7 counterexample: the row `tail_logs` stores for `goodLine` contains a
`category` column computed by `classify_bot` from the catalog — two
catalogs give two different stored rows for the same line, so the stored
record is not only the fields extracted verbatim from the line. -/
theorem c7_category_in_storage_counterexample :
    (mkRecord csigs goodLine).map (fun r => r.category) = some "curl_client"
    ∧ mkRecord [] goodLine ≠ mkRecord csigs goodLine :=
  ⟨by decide, by decide⟩

/-- C7 (amended): the stored row holds the verbatim fields timestamp, ip,
user agent, path, status and referer, plus a `category` column computed at
ingest time by `classify_bot` from the user agent and the catalog; the
multi-factor classification (threat level, score) is not stored. -/
theorem c7_stored_row_contents (sigs : List (String × List String))
    (line : String) (e : Entry) (h : parse_log_line line = some e) :
    mkRecord sigs line = some
      { timestamp := e.timestamp, ip := e.ip, user_agent := e.user_agent,
        path := extract_path e.request, status := e.status,
        category := classify_bot e.user_agent sigs, referer := e.referer } := by
  unfold mkRecord
  rw [h]
  rfl

/-- Witness for the amended C7 at `goodLine` with catalog `csigs`. -/
theorem c7_stored_row_contents_witness :
    parse_log_line goodLine = some goodEntry
    ∧ mkRecord csigs goodLine = some
        { timestamp := goodEntry.timestamp, ip := goodEntry.ip,
          user_agent := goodEntry.user_agent,
          path := extract_path goodEntry.request, status := goodEntry.status,
          category := classify_bot goodEntry.user_agent csigs,
          referer := goodEntry.referer } :=
  ⟨by decide, c7_stored_row_contents csigs goodLine goodEntry (by decide)⟩

/-- C8 counterexample: the accepted line `relPathLine` has request
`GET evil HTTP/1.1`; its stored path is `evil`, which does not start with
a slash. -/
theorem c8_path_start_counterexample :
    parse_log_line relPathLine = some relEntry
    ∧ (mkRecord [] relPathLine).map (fun r => r.path) = some "evil"
    ∧ startsWithSeq "/".data "evil".data = false :=
  ⟨by decide, by decide, by decide⟩

/-- C8 (amended): the stored path of a record from an accepted line is the
second whitespace token of the request line, taken verbatim (it need not
start with `/`), with `/` itself used as the default when the request has
fewer than two tokens. -/
theorem c8_path_second_token_or_default (sigs : List (String × List String))
    (line : String) (e : Entry) (h : parse_log_line line = some e) :
    (mkRecord sigs line).map (fun r => r.path) = some (extract_path e.request)
    ∧ extract_path e.request = ((splitWs e.request).drop 1).headD "/"
    ∧ ((splitWs e.request).length ≤ 1 → extract_path e.request = "/") := by
  refine ⟨?_, extract_path_second_token e.request, ?_⟩
  · unfold mkRecord
    rw [h]
    rfl
  · intro hl
    rw [extract_path_second_token]
    cases hsp : splitWs e.request with
    | nil => rfl
    | cons a t =>
      cases t with
      | nil => rfl
      | cons b t2 =>
        rw [hsp] at hl
        simp at hl

/-- Witness for the amended C8 at `oneTokLine`, whose request `GET` has a
single token, so the stored path defaults to `/`. -/
theorem c8_path_second_token_or_default_witness :
    parse_log_line oneTokLine = some oneTokEntry
    ∧ ((mkRecord [] oneTokLine).map (fun r => r.path)
          = some (extract_path oneTokEntry.request)
       ∧ extract_path oneTokEntry.request
          = ((splitWs oneTokEntry.request).drop 1).headD "/"
       ∧ ((splitWs oneTokEntry.request).length ≤ 1
          → extract_path oneTokEntry.request = "/")) :=
  ⟨by decide, c8_path_second_token_or_default [] oneTokLine oneTokEntry (by decide)⟩

/-- C9: the records a tailer run produces are exactly the parse successes
of the lines appended after it attached, in arrival order, each line
handled once and rejections skipped; the lines already in the file when the
tailer attaches never contribute (the result is independent of them). -/
theorem c9_tailer_skips_preexisting (sigs : List (String × List String))
    (initial initial2 appended : List String) :
    tail_logs sigs initial appended = appended.filterMap (mkRecord sigs)
    ∧ tail_logs sigs initial appended = tail_logs sigs initial2 appended := by
  have key : ∀ init : List String,
      tail_logs sigs init appended = appended.filterMap (mkRecord sigs) := by
    intro init
    unfold tail_logs
    rw [List.drop_left]
    exact tailLoop_eq_filterMap sigs appended
  exact ⟨key initial, (key initial).trans (key initial2).symm⟩

/-- C10: the detailed classification returns the same primary category,
threat level and total score as the basic one, differing only in the
additional evidence strings. -/
theorem c10_detailed_refines_basic (rs : String → String → Bool)
    (s : Signatures) (ua path : String) :
    (classify_traffic_detailed rs s ua path).category
        = (classify_traffic rs s ua path).1
    ∧ (classify_traffic_detailed rs s ua path).threat_level
        = (classify_traffic rs s ua path).2.1
    ∧ (classify_traffic_detailed rs s ua path).threat_score
        = (classify_traffic rs s ua path).2.2 := by
  have hua := classify_user_agent_detailed_proj s (strLower ua)
  cases h : classify_user_agent_detailed s (strLower ua) with
  | none =>
    have h2 : classify_user_agent s (strLower ua) = none := by
      rw [← hua, h]
      rfl
    refine ⟨?_, ?_, ?_⟩ <;>
      simp [classify_traffic, classify_traffic_detailed, h, h2,
        classify_path_eq, classify_path_detailed_eq]
  | some t =>
    have h2 : classify_user_agent s (strLower ua) = some (t.1, t.2.1) := by
      rw [← hua, h]
      rfl
    refine ⟨?_, ?_, ?_⟩ <;>
      simp [classify_traffic, classify_traffic_detailed, h, h2,
        classify_path_eq, classify_path_detailed_eq]

end HoneyPot
